import Mathlib

/-
Verification of `axelerate/networks/common_utils/fit.py`.

The module is a training wrapper around Keras: the function `train` creates a
timestamped session folder, optionally freezes model layers up to a named
layer, compiles the model, builds callbacks and runs `model.fit`, handling
KeyboardInterrupt.  We embed it as a pure function over an explicit model
state and an environment capturing the external inputs (timestamp, generator
lengths, whether fit is interrupted, elapsed time), returning the list of
observable effects (prints, filesystem operations, compile/fit calls), the
final layer list of the (mutated) model, and either a Python-level error or
the returned pair.
-/

namespace Axelerate

/-- A Keras layer as far as `train` observes it: its name and trainable flag. -/
structure Layer where
  name : String
  trainable : Bool
deriving Repr, DecidableEq

/-- A Keras model: its name and ordered list of layers. -/
structure Model where
  name : String
  layers : List Layer
deriving Repr, DecidableEq

/-- One entry of `metrics_dict`: a record with keys `name` and `best_value`. -/
structure MetricInfo where
  name : String
  best_value : String
deriving Repr, DecidableEq

/-- Python-level errors `train` can raise: `raise Exception(msg)`, an unbound
local variable (NameError/UnboundLocalError), or a dict KeyError. -/
inductive PyError where
  | exception (msg : String)
  | nameError (var : String)
  | keyError (key : String)
deriving Repr, DecidableEq

/-- The callbacks constructed by `train`, with the arguments the source passes. -/
inductive Callback where
  | tensorBoard (log_dir : String) (histogram_freq : Nat)
  | earlyStopping (monitor : String) (min_delta : ℚ) (patience : Nat)
      (mode : String) (restore_best_weights : Bool)
  | modelCheckpoint (filepath : String) (monitor : String)
      (save_best_only : Bool) (mode : String) (period : Nat)
  | reduceLROnPlateau (monitor : String) (factor : ℚ) (patience : Nat)
      (min_lr : ℚ) (mode : String)
  | warmUpCosineDecayScheduler (learning_rate_base : ℚ) (total_steps : Int)
      (warmup_learning_rate : ℚ) (warmup_steps : Int) (hold_base_rate_steps : Int)
deriving Repr, DecidableEq

/-- Observable effects of a run of `train`, in order. -/
inductive Event where
  | print (s : String)
  | makedirs (p : String)
  | printFixed (fixed : List String)
  | compile (metrics : String)
  | summary
  | construct (c : Callback)
  | fitCall (callbacks : List Callback) (steps_per_epoch : Nat) (epochs : Int)
      (validation_steps : Nat)
  | saveModel (p : String) (overwrite : Bool) (include_optimizer : Bool)
  | copytree (src : String) (dst : String)
deriving Repr, DecidableEq

/-- External inputs to a run: the timestamp string produced by
`datetime.now().strftime`, the lengths of the two batch generators, whether
`model.fit` raises KeyboardInterrupt, and the elapsed wall-clock time. -/
structure FitEnv where
  train_date : String
  trainLen : Nat
  validLen : Nat
  fitInterrupted : Bool
  elapsed : ℚ
deriving Repr, DecidableEq

/-- Models `os.path.join` for the relative path components used here. -/
def pathJoin (a b : String) : String := a ++ "/" ++ b

/-- Python `int()` truncation toward zero, on a rational value. -/
def pyInt (q : ℚ) : Int := if 0 ≤ q then ⌊q⌋ else ⌈q⌉

/-- The `_print_time` helper: the string it prints for elapsed time `t`. -/
def print_time (t : ℚ) : String :=
  if t < 60 then toString (pyInt t) ++ "-seconds to train"
  else toString (pyInt (t / 60)) ++ "-mins to train"

/-- The freeze loop: `for layer in model.layers: if layer.name == ftl: break;
layer.trainable = False; fixed_layers.append(layer.name)`.  Returns the
updated layer list and the accumulated `fixed_layers`. -/
def freezeBelow : List Layer → String → List Layer × List String
  | [], _ => ([], [])
  | l :: ls, ftl =>
    if l.name = ftl then (l :: ls, [])
    else
      let r := freezeBelow ls ftl
      ({ l with trainable := false } :: r.1, l.name :: r.2)

/-- The `if metrics_dict:` block.  A dict is truthy iff non-empty; on the
truthy branch both `best_value` and `metrics` come from
`metrics_dict[metric]` (KeyError if absent); otherwise `metrics = metric`
and `best_value` stays unbound (`none`). -/
def pyMetrics (metrics_dict : Option (List (String × MetricInfo)))
    (metric : String) : Except PyError (Option String × String) :=
  match metrics_dict with
  | some l =>
      if l.isEmpty then .ok (none, metric)
      else
        match l.lookup metric with
        | some info => .ok (some info.best_value, info.name)
        | none => .error (.keyError metric)
  | none => .ok (none, metric)

instance instDecEqExcept {ε α : Type} [DecidableEq ε] [DecidableEq α] :
    DecidableEq (Except ε α) := fun a b =>
  match a, b with
  | .error e, .error f =>
      if h : e = f then .isTrue (congrArg Except.error h)
      else .isFalse (fun hh => h (Except.error.inj hh))
  | .ok x, .ok y =>
      if h : x = y then .isTrue (congrArg Except.ok h)
      else .isFalse (fun hh => h (Except.ok.inj hh))
  | .error _, .ok _ => .isFalse (fun hh => Except.noConfusion hh)
  | .ok _, .error _ => .isFalse (fun hh => Except.noConfusion hh)

/-- Result of a run of `train`: the event trace, the final state of
`model.layers`, and either a raised error or the returned pair
`(model.layers, weights_path)`. -/
structure TrainOutcome where
  events : List Event
  layers : List Layer
  result : Except PyError (List Layer × String)
deriving Repr, DecidableEq

/-- Python truthiness of the `first_trainable_layer` argument restricted to
`None` and strings: `None` and `""` are falsy. -/
def truthyName : Option String → Bool
  | none => false
  | some s => s != ""

/-- The test `first_trainable_layer in layer_names` (`None` is never a
member since layer names are strings). -/
def nameInLayers : Option String → List String → Bool
  | none, _ => false
  | some s, names => names.contains s

/-- Everything after the freeze block: optimizer/metrics resolution, compile,
callback construction, fit and the two exit branches. -/
def afterFreeze (layers2 : List Layer) (evs : List Event)
    (learning_rate : ℚ) (nb_epoch : Int)
    (metrics_dict : Option (List (String × MetricInfo))) (metric : String)
    (save_weights_name save_weights_name_ctrlc path : String)
    (env : FitEnv) : TrainOutcome :=
  match pyMetrics metrics_dict metric with
  | .error e => ⟨evs, layers2, .error e⟩
  | .ok (bv?, metrics) =>
    let tb := Callback.tensorBoard "logs" 1
    let evs2 := evs ++ [.compile metrics, .summary, .construct tb]
    match bv? with
    | none => ⟨evs2, layers2, .error (.nameError "best_value")⟩
    | some bv =>
      let early_stop := Callback.earlyStopping metric (1/1000) 20 bv true
      let checkpoint := Callback.modelCheckpoint save_weights_name metric true bv 1
      let reduce_lr := Callback.reduceLROnPlateau metric (1/5) 10 (1/100000) bv
      let warm_up_lr := Callback.warmUpCosineDecayScheduler learning_rate
          ((env.trainLen : Int) * nb_epoch) 0
          ((env.trainLen : Int) * min 3 (nb_epoch - 1)) 0
      let callbacks := [early_stop, checkpoint, warm_up_lr, tb]
      let evs3 := evs2 ++ [.construct early_stop, .construct checkpoint,
                           .construct reduce_lr, .construct warm_up_lr,
                           .fitCall callbacks env.trainLen nb_epoch env.validLen]
      if env.fitInterrupted then
        ⟨evs3 ++ [.print "Saving model and copying logs",
                  .saveModel save_weights_name_ctrlc true false,
                  .copytree "logs" (pathJoin path "logs")],
         layers2, .ok (layers2, save_weights_name_ctrlc)⟩
      else
        ⟨evs3 ++ [.copytree "logs" (pathJoin path "logs"),
                  .print (print_time env.elapsed)],
         layers2, .ok (layers2, save_weights_name)⟩

/-- The `train` function of `fit.py`, as a pure function of the model, its
keyword arguments and the environment. -/
def train (model : Model) (learning_rate : ℚ) (nb_epoch : Int)
    (project_folder : String) (first_trainable_layer : Option String)
    (metrics_dict : Option (List (String × MetricInfo))) (metric : String)
    (env : FitEnv) : TrainOutcome :=
  let path := pathJoin project_folder env.train_date
  let basename := model.name ++ "_best_" ++ metric
  let save_weights_name := pathJoin path (basename ++ ".h5")
  let save_weights_name_ctrlc := pathJoin path (basename ++ "_ctrlc.h5")
  let ev0 : List Event :=
    [.print ("Current training session folder is " ++ path),
     .makedirs path, .print "\n"]
  let layer_names := model.layers.map Layer.name
  if nameInLayers first_trainable_layer layer_names then
    let fz := freezeBelow model.layers (first_trainable_layer.getD "")
    let evFixed : List Event :=
      if fz.2 = [] then []
      else [.print "The following layers do not update weights!!!", .printFixed fz.2]
    afterFreeze fz.1 (ev0 ++ evFixed) learning_rate nb_epoch metrics_dict metric
      save_weights_name save_weights_name_ctrlc path env
  else if truthyName first_trainable_layer then
    ⟨ev0 ++ [.print "First trainable layer specified in config file is not in the model. Did you mean one of these?"]
         ++ model.layers.enum.map (fun p => Event.print (toString p.1 ++ " " ++ p.2.name)),
     model.layers,
     .error (.exception "First trainable layer specified in config file is not in the model")⟩
  else
    afterFreeze model.layers ev0 learning_rate nb_epoch metrics_dict metric
      save_weights_name save_weights_name_ctrlc path env

/-- The condition under which the freeze block falls through without raising:
the name occurs in the model, or the argument is falsy (`None` or `""`). -/
def freezePasses (ftl : Option String) (names : List String) : Prop :=
  match ftl with
  | none => True
  | some s => s ∈ names ∨ s = ""

end Axelerate

namespace Axelerate

theorem nameInLayers_some_iff (s : String) (names : List String) :
    nameInLayers (some s) names = true ↔ s ∈ names := by
  simp [nameInLayers, List.contains, List.elem_iff]

theorem afterFreeze_layers (L : List Layer) (evs : List Event) (lr : ℚ) (nb : Int)
    (md : Option (List (String × MetricInfo))) (m swn swc p : String) (env : FitEnv) :
    (afterFreeze L evs lr nb md m swn swc p env).layers = L := by
  unfold afterFreeze
  split
  · rfl
  · split
    · rfl
    · split <;> rfl

theorem freezeBelow_fst_getElem (layers : List Layer) (s : String) (i : Nat) :
    (freezeBelow layers s).1[i]? =
      if i < layers.findIdx (fun l => l.name == s)
      then (layers[i]?).map (fun l => { l with trainable := false })
      else layers[i]? := by
  induction layers generalizing i with
  | nil => simp [freezeBelow]
  | cons l ls ih =>
    rw [freezeBelow]
    by_cases h : l.name = s
    · rw [if_pos h]
      have hb : (fun l : Layer => l.name == s) l = true := by simpa using h
      simp [List.findIdx_cons, hb]
    · rw [if_neg h]
      have hb : (fun l : Layer => l.name == s) l = false := by simpa using h
      cases i with
      | zero => simp [List.findIdx_cons, hb]
      | succ n =>
        simp only [List.findIdx_cons, hb, cond_false, List.getElem?_cons_succ]
        rw [ih n]
        simp [Nat.succ_lt_succ_iff]

theorem train_layers_of_mem (model : Model) (lr : ℚ) (nb : Int)
    (pf : String) (md : Option (List (String × MetricInfo))) (metric : String)
    (env : FitEnv) (s : String) (hs : s ∈ model.layers.map Layer.name) :
    (train model lr nb pf (some s) md metric env).layers =
      (freezeBelow model.layers s).1 := by
  have hc : nameInLayers (some s) (model.layers.map Layer.name) = true :=
    (nameInLayers_some_iff s _).2 hs
  simp only [train, hc, if_true, Option.getD_some]
  exact afterFreeze_layers _ _ _ _ _ _ _ _ _ _

end Axelerate

namespace Axelerate

/-- Claim C1: for every model and every `first_trainable_layer` name occurring
among the model's layer names, `train` sets `trainable := false` on exactly the
layers strictly before the first occurrence of that name, and every layer from
that occurrence onward is left unchanged (so a trainable layer stays trainable). -/
theorem C1_freeze_before_first_occurrence (model : Model) (lr : ℚ) (nb : Int)
    (pf : String) (md : Option (List (String × MetricInfo))) (metric : String)
    (env : FitEnv) (s : String) (hs : s ∈ model.layers.map Layer.name) :
    (∀ i, i < model.layers.findIdx (fun l => l.name == s) →
      (train model lr nb pf (some s) md metric env).layers[i]? =
        (model.layers[i]?).map (fun l => { l with trainable := false })) ∧
    (∀ i, model.layers.findIdx (fun l => l.name == s) ≤ i →
      (train model lr nb pf (some s) md metric env).layers[i]? = model.layers[i]?) := by
  constructor <;> intro i hi <;>
    rw [train_layers_of_mem model lr nb pf md metric env s hs, freezeBelow_fst_getElem]
  · rw [if_pos hi]
  · rw [if_neg (by omega)]

theorem C1_witness :
    let m : Model := ⟨"m", [⟨"a", true⟩, ⟨"b", true⟩, ⟨"c", true⟩]⟩
    let env : FitEnv := ⟨"D", 1, 1, false, 0⟩
    (train m 1 1 "p" (some "b") none "val_loss" env).layers[0]? =
      some ⟨"a", false⟩ ∧
    (train m 1 1 "p" (some "b") none "val_loss" env).layers[1]? =
      some ⟨"b", true⟩ := by
  intro m env
  have h := C1_freeze_before_first_occurrence m 1 1 "p" none "val_loss" env "b"
    (by decide)
  refine ⟨?_, ?_⟩
  · have := h.1 0 (by decide)
    simpa using this
  · have := h.2 1 (by decide)
    simpa using this

/-- Claim C9, counterexample: the claim says a falsy `first_trainable_layer`
(e.g. the empty string) never changes trainability, but the source checks
`first_trainable_layer in layer_names` before the falsiness test, so for a
model with layers named `a` and the empty string and the empty string as
`first_trainable_layer`, layer `a` is frozen. -/
theorem C9_counterexample :
    (train ⟨"m", [⟨"a", true⟩, ⟨"", true⟩]⟩ 1 1 "p" (some "") none "val_loss"
        ⟨"D", 1, 1, false, 0⟩).layers ≠ [Layer.mk "a" true, Layer.mk "" true] := by
  decide

/-- Claim C9, amended: when `first_trainable_layer` is `None`, or is the empty
string while no layer is named the empty string, `train` leaves every layer's
trainable flag exactly as it was. -/
theorem C9_amended (model : Model) (lr : ℚ) (nb : Int) (pf : String)
    (ftl : Option String) (md : Option (List (String × MetricInfo)))
    (metric : String) (env : FitEnv)
    (h : ftl = none ∨ (ftl = some "" ∧ "" ∉ model.layers.map Layer.name)) :
    (train model lr nb pf ftl md metric env).layers = model.layers := by
  rcases h with h | ⟨h, hmem⟩ <;> subst h
  · simp only [train, nameInLayers, truthyName, Bool.false_eq_true, if_false]
    exact afterFreeze_layers _ _ _ _ _ _ _ _ _ _
  · have hc : nameInLayers (some "") (model.layers.map Layer.name) = false := by
      rw [← Bool.not_eq_true, nameInLayers_some_iff]
      exact hmem
    have ht : truthyName (some "") = false := by decide
    simp only [train, hc, ht, Bool.false_eq_true, if_false]
    exact afterFreeze_layers _ _ _ _ _ _ _ _ _ _

theorem C9_amended_witness :
    (train ⟨"m", [⟨"a", true⟩]⟩ 1 1 "p" none none "val_loss"
      ⟨"D", 1, 1, false, 0⟩).layers = [Layer.mk "a" true] := by
  exact C9_amended ⟨"m", [⟨"a", true⟩]⟩ 1 1 "p" none none "val_loss"
    ⟨"D", 1, 1, false, 0⟩ (Or.inl rfl)

/-- Claim C10: `_print_time` prints the truncated seconds count followed by
`-seconds to train` when `t < 60` and the truncated minutes count followed by
`-mins to train` otherwise; in particular 45 gives `45-seconds to train` and
125 gives `2-mins to train`. -/
theorem C10_print_time :
    (∀ t : ℚ, t < 60 → print_time t = toString (pyInt t) ++ "-seconds to train") ∧
    (∀ t : ℚ, ¬ t < 60 → print_time t = toString (pyInt (t / 60)) ++ "-mins to train") ∧
    print_time 45 = "45-seconds to train" ∧ print_time 125 = "2-mins to train" := by
  refine ⟨fun t ht => by simp [print_time, ht], fun t ht => by simp [print_time, ht],
    ?_, ?_⟩
  · have h45 : pyInt 45 = 45 := by
      unfold pyInt
      rw [if_pos (by norm_num)]
      have : ((45 : ℤ) : ℚ) = (45 : ℚ) := by norm_num
      rw [← this, Int.floor_intCast]
    unfold print_time
    rw [if_pos (by norm_num), h45]
    rfl
  · have hq : (125 : ℚ) / 60 = ((125 : ℤ) : ℚ) / ((60 : ℕ) : ℚ) := by norm_num
    have h2 : pyInt ((125 : ℚ) / 60) = 2 := by
      unfold pyInt
      rw [if_pos (by norm_num), hq, Rat.floor_intCast_div_natCast]
      decide
    unfold print_time
    rw [if_neg (by norm_num), h2]
    rfl

theorem C10_witness : print_time 45 = "45-seconds to train" := by
  have h := C10_print_time.1 45 (by norm_num)
  rw [h]
  have : pyInt 45 = 45 := by
    unfold pyInt
    rw [if_pos (by norm_num)]
    have h45 : ((45 : ℤ) : ℚ) = (45 : ℚ) := by norm_num
    rw [← h45, Int.floor_intCast]
  rw [this]
  rfl

end Axelerate

namespace Axelerate

theorem afterFreeze_eq_of_none (L : List Layer) (evs : List Event) (lr : ℚ) (nb : Int)
    (md : Option (List (String × MetricInfo))) (m ms swn swc p : String) (env : FitEnv)
    (h : pyMetrics md m = .ok (none, ms)) :
    afterFreeze L evs lr nb md m swn swc p env =
      ⟨evs ++ [.compile ms, .summary, .construct (.tensorBoard "logs" 1)], L,
       .error (.nameError "best_value")⟩ := by
  unfold afterFreeze
  rw [h]

theorem afterFreeze_eq_of_some (L : List Layer) (evs : List Event) (lr : ℚ) (nb : Int)
    (md : Option (List (String × MetricInfo))) (m bv ms swn swc p : String) (env : FitEnv)
    (h : pyMetrics md m = .ok (some bv, ms)) :
    afterFreeze L evs lr nb md m swn swc p env =
      ⟨((evs ++ [.compile ms, .summary, .construct (.tensorBoard "logs" 1)]) ++
          [.construct (.earlyStopping m (1/1000) 20 bv true),
           .construct (.modelCheckpoint swn m true bv 1),
           .construct (.reduceLROnPlateau m (1/5) 10 (1/100000) bv),
           .construct (.warmUpCosineDecayScheduler lr ((env.trainLen : Int) * nb) 0
             ((env.trainLen : Int) * min 3 (nb - 1)) 0),
           .fitCall [.earlyStopping m (1/1000) 20 bv true,
                     .modelCheckpoint swn m true bv 1,
                     .warmUpCosineDecayScheduler lr ((env.trainLen : Int) * nb) 0
                       ((env.trainLen : Int) * min 3 (nb - 1)) 0,
                     .tensorBoard "logs" 1] env.trainLen nb env.validLen]) ++
        (if env.fitInterrupted then
          [.print "Saving model and copying logs", .saveModel swc true false,
           .copytree "logs" (pathJoin p "logs")]
         else [.copytree "logs" (pathJoin p "logs"), .print (print_time env.elapsed)]),
       L, .ok (L, if env.fitInterrupted then swc else swn)⟩ := by
  unfold afterFreeze
  rw [h]
  by_cases hI : env.fitInterrupted <;> simp [hI]

theorem pyMetrics_eq_of_lookup (l : List (String × MetricInfo)) (info : MetricInfo)
    (metric : String) (hl : l ≠ []) (hlk : l.lookup metric = some info) :
    pyMetrics (some l) metric = .ok (some info.best_value, info.name) := by
  have : l.isEmpty = false := by
    cases l with
    | nil => exact absurd rfl hl
    | cons a t => rfl
  simp [pyMetrics, this, hlk]

theorem train_eq_of_inNames (model : Model) (lr : ℚ) (nb : Int) (pf : String)
    (ftl : Option String) (md : Option (List (String × MetricInfo)))
    (metric : String) (env : FitEnv)
    (hc : nameInLayers ftl (model.layers.map Layer.name) = true) :
    train model lr nb pf ftl md metric env =
      afterFreeze (freezeBelow model.layers (ftl.getD "")).1
        ([.print ("Current training session folder is " ++ pathJoin pf env.train_date),
          .makedirs (pathJoin pf env.train_date), .print "\n"] ++
         (if (freezeBelow model.layers (ftl.getD "")).2 = [] then []
          else [.print "The following layers do not update weights!!!",
                .printFixed (freezeBelow model.layers (ftl.getD "")).2]))
        lr nb md metric
        (pathJoin (pathJoin pf env.train_date) ((model.name ++ "_best_" ++ metric) ++ ".h5"))
        (pathJoin (pathJoin pf env.train_date) ((model.name ++ "_best_" ++ metric) ++ "_ctrlc.h5"))
        (pathJoin pf env.train_date) env := by
  simp only [train, hc, if_true]

theorem train_eq_of_pass (model : Model) (lr : ℚ) (nb : Int) (pf : String)
    (ftl : Option String) (md : Option (List (String × MetricInfo)))
    (metric : String) (env : FitEnv)
    (hc : nameInLayers ftl (model.layers.map Layer.name) = false)
    (ht : truthyName ftl = false) :
    train model lr nb pf ftl md metric env =
      afterFreeze model.layers
        [.print ("Current training session folder is " ++ pathJoin pf env.train_date),
         .makedirs (pathJoin pf env.train_date), .print "\n"]
        lr nb md metric
        (pathJoin (pathJoin pf env.train_date) ((model.name ++ "_best_" ++ metric) ++ ".h5"))
        (pathJoin (pathJoin pf env.train_date) ((model.name ++ "_best_" ++ metric) ++ "_ctrlc.h5"))
        (pathJoin pf env.train_date) env := by
  simp only [train, hc, ht, Bool.false_eq_true, if_false]

theorem train_eq_of_raise (model : Model) (lr : ℚ) (nb : Int) (pf : String)
    (ftl : Option String) (md : Option (List (String × MetricInfo)))
    (metric : String) (env : FitEnv)
    (hc : nameInLayers ftl (model.layers.map Layer.name) = false)
    (ht : truthyName ftl = true) :
    train model lr nb pf ftl md metric env =
      ⟨([.print ("Current training session folder is " ++ pathJoin pf env.train_date),
         .makedirs (pathJoin pf env.train_date), .print "\n"] ++
        [.print "First trainable layer specified in config file is not in the model. Did you mean one of these?"]) ++
        model.layers.enum.map (fun q => Event.print (toString q.1 ++ " " ++ q.2.name)),
       model.layers,
       .error (.exception "First trainable layer specified in config file is not in the model")⟩ := by
  simp only [train, hc, ht, Bool.false_eq_true, if_false, if_true]

end Axelerate

namespace Axelerate

theorem train_reach (model : Model) (lr : ℚ) (nb : Int) (pf : String)
    (ftl : Option String) (md : Option (List (String × MetricInfo)))
    (metric : String) (env : FitEnv)
    (hfp : freezePasses ftl (model.layers.map Layer.name)) :
    ∃ L evs0, train model lr nb pf ftl md metric env =
      afterFreeze L evs0 lr nb md metric
        (pathJoin (pathJoin pf env.train_date) ((model.name ++ "_best_" ++ metric) ++ ".h5"))
        (pathJoin (pathJoin pf env.train_date) ((model.name ++ "_best_" ++ metric) ++ "_ctrlc.h5"))
        (pathJoin pf env.train_date) env := by
  cases ftl with
  | none =>
    exact ⟨model.layers, _, train_eq_of_pass model lr nb pf none md metric env rfl rfl⟩
  | some s =>
    rcases hfp with hmem | hempty
    · exact ⟨_, _, train_eq_of_inNames model lr nb pf (some s) md metric env
        ((nameInLayers_some_iff s _).2 hmem)⟩
    · subst hempty
      by_cases hc : nameInLayers (some "") (model.layers.map Layer.name) = true
      · exact ⟨_, _, train_eq_of_inNames model lr nb pf (some "") md metric env hc⟩
      · exact ⟨model.layers, _, train_eq_of_pass model lr nb pf (some "") md metric env
          (Bool.not_eq_true _ ▸ eq_false_of_ne_true hc) rfl⟩

/-- Claim C2: for every non-empty `first_trainable_layer` that does not occur
among the model's layer names, `train` raises
`Exception` with the message from the source,
its event trace is the setup prints followed by the diagnostic print and the
indexed list of all layer names, and no `model.compile` call ever happens. -/
theorem C2_missing_layer_raises (model : Model) (lr : ℚ) (nb : Int) (pf : String)
    (md : Option (List (String × MetricInfo))) (metric : String) (env : FitEnv)
    (s : String) (hs : s ≠ "") (hnot : s ∉ model.layers.map Layer.name) :
    (train model lr nb pf (some s) md metric env).result =
      .error (.exception "First trainable layer specified in config file is not in the model") ∧
    (train model lr nb pf (some s) md metric env).events =
      [.print ("Current training session folder is " ++ pathJoin pf env.train_date),
       .makedirs (pathJoin pf env.train_date), .print "\n",
       .print "First trainable layer specified in config file is not in the model. Did you mean one of these?"]
        ++ model.layers.enum.map (fun q => Event.print (toString q.1 ++ " " ++ q.2.name)) ∧
    (∀ m, Event.compile m ∉ (train model lr nb pf (some s) md metric env).events) := by
  have hc : nameInLayers (some s) (model.layers.map Layer.name) = false := by
    rw [← Bool.not_eq_true, nameInLayers_some_iff]
    exact hnot
  have ht : truthyName (some s) = true := by
    simp [truthyName, hs]
  rw [train_eq_of_raise model lr nb pf (some s) md metric env hc ht]
  refine ⟨rfl, by simp, ?_⟩
  intro m hm
  simp only [List.mem_append, List.mem_cons, List.mem_map, List.not_mem_nil] at hm
  rcases hm with ((h | h | h | h) | h) | ⟨q, _, h⟩ <;> simp_all

end Axelerate

namespace Axelerate

theorem afterFreeze_eq_of_error (L : List Layer) (evs : List Event) (lr : ℚ) (nb : Int)
    (md : Option (List (String × MetricInfo))) (m swn swc p : String) (env : FitEnv)
    (e : PyError) (h : pyMetrics md m = .error e) :
    afterFreeze L evs lr nb md m swn swc p env = ⟨evs, L, .error e⟩ := by
  unfold afterFreeze
  rw [h]

/-- Claim C3: whenever `metrics_dict` is falsy (`None` or the empty dict), the
local `best_value` is never assigned, so `train` fails before `model.fit` is
invoked; when the freeze block falls through, the failure is precisely the
NameError/UnboundLocalError on `best_value` raised while constructing the
`EarlyStopping` callback. -/
theorem C3_falsy_metrics_dict (model : Model) (lr : ℚ) (nb : Int) (pf : String)
    (ftl : Option String) (md : Option (List (String × MetricInfo)))
    (metric : String) (env : FitEnv)
    (hmd : md = none ∨ md = some []) :
    (∃ e, (train model lr nb pf ftl md metric env).result = .error e) ∧
    (∀ cbs st ep vs, Event.fitCall cbs st ep vs ∉ (train model lr nb pf ftl md metric env).events) ∧
    (freezePasses ftl (model.layers.map Layer.name) →
      (train model lr nb pf ftl md metric env).result = .error (.nameError "best_value")) := by
  have hpm : pyMetrics md metric = .ok (none, metric) := by
    rcases hmd with h | h <;> subst h <;> simp [pyMetrics]
  by_cases hc : nameInLayers ftl (model.layers.map Layer.name) = true
  · rw [train_eq_of_inNames model lr nb pf ftl md metric env hc,
        afterFreeze_eq_of_none _ _ _ _ _ _ _ _ _ _ _ hpm]
    refine ⟨⟨_, rfl⟩, ?_, fun _ => rfl⟩
    intro cbs st ep vs hm
    rcases List.mem_append.1 hm with h | h
    · rcases List.mem_append.1 h with h | h
      · simp at h
      · revert h
        split <;> intro h <;> simp at h
    · simp at h
  · by_cases ht : truthyName ftl = true
    · rw [train_eq_of_raise model lr nb pf ftl md metric env (by simpa using hc) ht]
      refine ⟨⟨_, rfl⟩, ?_, ?_⟩
      · intro cbs st ep vs hm
        rcases List.mem_append.1 hm with h | h
        · simp at h
        · simp at h
      · intro hfp
        exfalso
        cases ftl with
        | none => simp [truthyName] at ht
        | some s =>
          rcases hfp with hmem | hempty
          · exact hc ((nameInLayers_some_iff s _).2 hmem)
          · subst hempty
            simp [truthyName] at ht
    · rw [train_eq_of_pass model lr nb pf ftl md metric env (by simpa using hc)
          (by simpa using ht),
        afterFreeze_eq_of_none _ _ _ _ _ _ _ _ _ _ _ hpm]
      refine ⟨⟨_, rfl⟩, ?_, fun _ => rfl⟩
      intro cbs st ep vs hm
      rcases List.mem_append.1 hm with h | h
      · simp at h
      · simp at h

theorem afterFreeze_result_ok (L : List Layer) (evs : List Event) (lr : ℚ) (nb : Int)
    (md : Option (List (String × MetricInfo))) (m swn swc p : String) (env : FitEnv)
    (r : List Layer × String)
    (h : (afterFreeze L evs lr nb md m swn swc p env).result = .ok r) :
    Event.copytree "logs" (pathJoin p "logs") ∈
      (afterFreeze L evs lr nb md m swn swc p env).events ∧
    r.1 = L ∧ (env.fitInterrupted = false → r.2 = swn) := by
  rcases hpm : pyMetrics md m with e | ⟨bv?, ms⟩
  · rw [afterFreeze_eq_of_error _ _ _ _ _ _ _ _ _ _ _ hpm] at h
    simp at h
  · rcases bv? with _ | bv
    · rw [afterFreeze_eq_of_none _ _ _ _ _ _ _ _ _ _ _ hpm] at h
      simp at h
    · rw [afterFreeze_eq_of_some _ _ _ _ _ _ _ _ _ _ _ _ hpm] at h ⊢
      by_cases hI : env.fitInterrupted = true
      · simp only [hI, if_true] at h ⊢
        have hr : r = (L, swc) := by simpa using h.symm
        subst hr
        exact ⟨by simp, rfl, fun hF => absurd hF (by simp)⟩
      · have hIF : env.fitInterrupted = false := by simpa using hI
        simp only [hIF, Bool.false_eq_true, if_false] at h ⊢
        have hr : r = (L, swn) := by simpa using h.symm
        subst hr
        exact ⟨by simp, rfl, fun _ => rfl⟩

end Axelerate

namespace Axelerate

/-- Claim C6: on every terminating run of `train` that does not raise, the
`logs` directory is copied into the session folder (in both the interrupted and
the completed branch), the returned pair is `(model.layers, weights_path)`, and
on normal completion `weights_path` is
the best-weights path under the timestamped session folder. -/
theorem C6_terminating_run (model : Model) (lr : ℚ) (nb : Int) (pf : String)
    (ftl : Option String) (md : Option (List (String × MetricInfo)))
    (metric : String) (env : FitEnv) (r : List Layer × String)
    (h : (train model lr nb pf ftl md metric env).result = .ok r) :
    Event.copytree "logs" (pathJoin (pathJoin pf env.train_date) "logs") ∈
      (train model lr nb pf ftl md metric env).events ∧
    r.1 = (train model lr nb pf ftl md metric env).layers ∧
    (env.fitInterrupted = false →
      r.2 = pathJoin (pathJoin pf env.train_date)
        ((model.name ++ "_best_" ++ metric) ++ ".h5")) := by
  by_cases hc : nameInLayers ftl (model.layers.map Layer.name) = true
  · rw [train_eq_of_inNames model lr nb pf ftl md metric env hc] at h ⊢
    have hx := afterFreeze_result_ok _ _ _ _ _ _ _ _ _ _ r h
    exact ⟨hx.1, hx.2.1.trans (afterFreeze_layers _ _ _ _ _ _ _ _ _ _).symm, hx.2.2⟩
  · by_cases ht : truthyName ftl = true
    · rw [train_eq_of_raise model lr nb pf ftl md metric env (by simpa using hc) ht] at h
      simp at h
    · rw [train_eq_of_pass model lr nb pf ftl md metric env (by simpa using hc)
          (by simpa using ht)] at h ⊢
      have hx := afterFreeze_result_ok _ _ _ _ _ _ _ _ _ _ r h
      exact ⟨hx.1, hx.2.1.trans (afterFreeze_layers _ _ _ _ _ _ _ _ _ _).symm, hx.2.2⟩

/-- Claim C4: when `model.fit` raises KeyboardInterrupt, `train` saves the model
to the interrupt path with `include_optimizer=False`, copies the `logs`
directory into the session folder, does not re-raise, and returns
`(model.layers, p)` where `p` ends in `_ctrlc.h5`. -/
theorem C4_interrupt_branch (model : Model) (lr : ℚ) (nb : Int) (pf : String)
    (ftl : Option String) (l : List (String × MetricInfo)) (info : MetricInfo)
    (metric : String) (env : FitEnv)
    (hfp : freezePasses ftl (model.layers.map Layer.name))
    (hl : l ≠ []) (hlk : l.lookup metric = some info)
    (hI : env.fitInterrupted = true) :
    (train model lr nb pf ftl (some l) metric env).result =
      .ok ((train model lr nb pf ftl (some l) metric env).layers,
           pathJoin (pathJoin pf env.train_date)
             ((model.name ++ "_best_" ++ metric) ++ "_ctrlc.h5")) ∧
    Event.saveModel (pathJoin (pathJoin pf env.train_date)
        ((model.name ++ "_best_" ++ metric) ++ "_ctrlc.h5")) true false ∈
      (train model lr nb pf ftl (some l) metric env).events ∧
    Event.copytree "logs" (pathJoin (pathJoin pf env.train_date) "logs") ∈
      (train model lr nb pf ftl (some l) metric env).events ∧
    ∃ q, pathJoin (pathJoin pf env.train_date)
        ((model.name ++ "_best_" ++ metric) ++ "_ctrlc.h5") = q ++ "_ctrlc.h5" := by
  obtain ⟨L, evs0, heq⟩ := train_reach model lr nb pf ftl (some l) metric env hfp
  rw [heq, afterFreeze_eq_of_some _ _ _ _ _ _ _ _ _ _ _ _
    (pyMetrics_eq_of_lookup l info metric hl hlk)]
  refine ⟨by simp [hI], by simp [hI], by simp [hI], ?_⟩
  exact ⟨(pathJoin pf env.train_date ++ "/") ++ (model.name ++ "_best_" ++ metric),
    (String.append_assoc _ _ _).symm⟩

/-- Claim C5: the warm-up scheduler is constructed with
`total_steps = len(train_batch_gen) * nb_epoch` and
`warmup_steps = len(train_batch_gen) * min(3, nb_epoch - 1)`; the witness
instantiates `nb_epoch = 5` and `len(train_batch_gen) = 10`, giving
`warmup_steps = 30` and `total_steps = 50`. -/
theorem C5_warmup_scheduler (model : Model) (lr : ℚ) (nb : Int) (pf : String)
    (ftl : Option String) (l : List (String × MetricInfo)) (info : MetricInfo)
    (metric : String) (env : FitEnv)
    (hfp : freezePasses ftl (model.layers.map Layer.name))
    (hl : l ≠ []) (hlk : l.lookup metric = some info) :
    Event.construct (Callback.warmUpCosineDecayScheduler lr ((env.trainLen : Int) * nb) 0
        ((env.trainLen : Int) * min 3 (nb - 1)) 0) ∈
      (train model lr nb pf ftl (some l) metric env).events := by
  obtain ⟨L, evs0, heq⟩ := train_reach model lr nb pf ftl (some l) metric env hfp
  rw [heq, afterFreeze_eq_of_some _ _ _ _ _ _ _ _ _ _ _ _
    (pyMetrics_eq_of_lookup l info metric hl hlk)]
  simp

/-- Claim C7: for every truthy `metrics_dict` with an entry for the monitor
string, `train` compiles the model with the entry's `name` field and uses the
entry's `best_value` field as `mode` for the monitoring callbacks; with
`metrics_dict` absent, the metric name passed to compile is the literal monitor
string `metric` itself. -/
theorem C7_metric_resolution (model : Model) (lr : ℚ) (nb : Int) (pf : String)
    (ftl : Option String) (metric : String) (env : FitEnv)
    (hfp : freezePasses ftl (model.layers.map Layer.name)) :
    (∀ (l : List (String × MetricInfo)) (info : MetricInfo), l ≠ [] →
      l.lookup metric = some info →
      Event.compile info.name ∈ (train model lr nb pf ftl (some l) metric env).events ∧
      Event.construct (.earlyStopping metric (1/1000) 20 info.best_value true) ∈
        (train model lr nb pf ftl (some l) metric env).events ∧
      Event.construct (.modelCheckpoint
          (pathJoin (pathJoin pf env.train_date) ((model.name ++ "_best_" ++ metric) ++ ".h5"))
          metric true info.best_value 1) ∈
        (train model lr nb pf ftl (some l) metric env).events) ∧
    Event.compile metric ∈ (train model lr nb pf ftl none metric env).events := by
  constructor
  · intro l info hl hlk
    obtain ⟨L, evs0, heq⟩ := train_reach model lr nb pf ftl (some l) metric env hfp
    rw [heq, afterFreeze_eq_of_some _ _ _ _ _ _ _ _ _ _ _ _
      (pyMetrics_eq_of_lookup l info metric hl hlk)]
    exact ⟨by simp, by simp, by simp⟩
  · obtain ⟨L, evs0, heq⟩ := train_reach model lr nb pf ftl none metric env hfp
    rw [heq, afterFreeze_eq_of_none L evs0 lr nb none metric metric _ _ _ env
      (by simp [pyMetrics])]
    simp

/-- Claim C8: every run that reaches `model.fit` passes exactly four callbacks:
early stopping (min_delta 0.001, patience 20, restore_best_weights), best-only
checkpointing to the best-weights path, the warm-up cosine scheduler, and
TensorBoard logging to `logs`; the constructed `ReduceLROnPlateau` callback is
not among them. -/
theorem C8_four_callbacks (model : Model) (lr : ℚ) (nb : Int) (pf : String)
    (ftl : Option String) (l : List (String × MetricInfo)) (info : MetricInfo)
    (metric : String) (env : FitEnv)
    (hfp : freezePasses ftl (model.layers.map Layer.name))
    (hl : l ≠ []) (hlk : l.lookup metric = some info) :
    Event.fitCall
      [.earlyStopping metric (1/1000) 20 info.best_value true,
       .modelCheckpoint (pathJoin (pathJoin pf env.train_date)
         ((model.name ++ "_best_" ++ metric) ++ ".h5")) metric true info.best_value 1,
       .warmUpCosineDecayScheduler lr ((env.trainLen : Int) * nb) 0
         ((env.trainLen : Int) * min 3 (nb - 1)) 0,
       .tensorBoard "logs" 1] env.trainLen nb env.validLen ∈
      (train model lr nb pf ftl (some l) metric env).events ∧
    ([Callback.earlyStopping metric (1/1000) 20 info.best_value true,
      .modelCheckpoint (pathJoin (pathJoin pf env.train_date)
        ((model.name ++ "_best_" ++ metric) ++ ".h5")) metric true info.best_value 1,
      .warmUpCosineDecayScheduler lr ((env.trainLen : Int) * nb) 0
        ((env.trainLen : Int) * min 3 (nb - 1)) 0,
      .tensorBoard "logs" 1] : List Callback).length = 4 ∧
    (∀ mn f pt ml mo, Callback.reduceLROnPlateau mn f pt ml mo ∉
      ([Callback.earlyStopping metric (1/1000) 20 info.best_value true,
        .modelCheckpoint (pathJoin (pathJoin pf env.train_date)
          ((model.name ++ "_best_" ++ metric) ++ ".h5")) metric true info.best_value 1,
        .warmUpCosineDecayScheduler lr ((env.trainLen : Int) * nb) 0
          ((env.trainLen : Int) * min 3 (nb - 1)) 0,
        .tensorBoard "logs" 1] : List Callback)) ∧
    Event.construct (.reduceLROnPlateau metric (1/5) 10 (1/100000) info.best_value) ∈
      (train model lr nb pf ftl (some l) metric env).events := by
  obtain ⟨L, evs0, heq⟩ := train_reach model lr nb pf ftl (some l) metric env hfp
  rw [heq, afterFreeze_eq_of_some _ _ _ _ _ _ _ _ _ _ _ _
    (pyMetrics_eq_of_lookup l info metric hl hlk)]
  refine ⟨by simp, rfl, ?_, by simp⟩
  intro mn f pt ml mo hm
  simp at hm

end Axelerate

namespace Axelerate

theorem C2_witness :
    (train ⟨"m", [⟨"a", true⟩]⟩ 1 1 "p" (some "x") none "val_loss"
      ⟨"D", 1, 1, false, 0⟩).result =
      .error (.exception "First trainable layer specified in config file is not in the model") :=
  (C2_missing_layer_raises ⟨"m", [⟨"a", true⟩]⟩ 1 1 "p" none "val_loss"
    ⟨"D", 1, 1, false, 0⟩ "x" (by decide) (by decide)).1

theorem C3_witness :
    (train ⟨"m", [⟨"a", true⟩]⟩ 1 1 "p" none none "val_loss"
      ⟨"D", 1, 1, false, 0⟩).result = .error (.nameError "best_value") :=
  (C3_falsy_metrics_dict ⟨"m", [⟨"a", true⟩]⟩ 1 1 "p" none none "val_loss"
    ⟨"D", 1, 1, false, 0⟩ (Or.inl rfl)).2.2 True.intro

theorem C4_witness :
    (train ⟨"m", [⟨"a", true⟩]⟩ 1 1 "p" none (some [("val_loss", ⟨"val_loss", "min"⟩)])
      "val_loss" ⟨"D", 1, 1, true, 0⟩).result =
      .ok ((train ⟨"m", [⟨"a", true⟩]⟩ 1 1 "p" none
              (some [("val_loss", ⟨"val_loss", "min"⟩)]) "val_loss"
              ⟨"D", 1, 1, true, 0⟩).layers,
           pathJoin (pathJoin "p" "D") (("m" ++ "_best_" ++ "val_loss") ++ "_ctrlc.h5")) :=
  (C4_interrupt_branch ⟨"m", [⟨"a", true⟩]⟩ 1 1 "p" none
    [("val_loss", ⟨"val_loss", "min"⟩)] ⟨"val_loss", "min"⟩ "val_loss"
    ⟨"D", 1, 1, true, 0⟩ True.intro (by decide) rfl rfl).1

theorem C5_witness :
    Event.construct (Callback.warmUpCosineDecayScheduler 1 50 0 30 0) ∈
      (train ⟨"m", [⟨"a", true⟩]⟩ 1 5 "p" none
        (some [("val_loss", ⟨"val_loss", "min"⟩)]) "val_loss"
        ⟨"D", 10, 2, false, 45⟩).events := by
  have h := C5_warmup_scheduler ⟨"m", [⟨"a", true⟩]⟩ 1 5 "p" none
    [("val_loss", ⟨"val_loss", "min"⟩)] ⟨"val_loss", "min"⟩ "val_loss"
    ⟨"D", 10, 2, false, 45⟩ True.intro (by decide) rfl
  exact h

theorem C6_witness :
    Event.copytree "logs" (pathJoin (pathJoin "p" "D") "logs") ∈
      (train ⟨"m", [⟨"a", true⟩]⟩ 1 1 "p" none
        (some [("val_loss", ⟨"val_loss", "min"⟩)]) "val_loss"
        ⟨"D", 1, 1, false, 0⟩).events :=
  (C6_terminating_run ⟨"m", [⟨"a", true⟩]⟩ 1 1 "p" none
    (some [("val_loss", ⟨"val_loss", "min"⟩)]) "val_loss" ⟨"D", 1, 1, false, 0⟩
    ([⟨"a", true⟩], pathJoin (pathJoin "p" "D") (("m" ++ "_best_" ++ "val_loss") ++ ".h5"))
    (by decide)).1

theorem C7_witness :
    Event.compile "accuracy" ∈
      (train ⟨"m", [⟨"a", true⟩]⟩ 1 1 "p" none
        (some [("val_loss", ⟨"accuracy", "min"⟩)]) "val_loss"
        ⟨"D", 1, 1, false, 0⟩).events :=
  ((C7_metric_resolution ⟨"m", [⟨"a", true⟩]⟩ 1 1 "p" none "val_loss"
    ⟨"D", 1, 1, false, 0⟩ True.intro).1 [("val_loss", ⟨"accuracy", "min"⟩)]
    ⟨"accuracy", "min"⟩ (by decide) rfl).1

theorem C8_witness :
    Event.fitCall
      [.earlyStopping "val_loss" (1/1000) 20 "min" true,
       .modelCheckpoint (pathJoin (pathJoin "p" "D") (("m" ++ "_best_" ++ "val_loss") ++ ".h5"))
         "val_loss" true "min" 1,
       .warmUpCosineDecayScheduler 1 50 0 30 0,
       .tensorBoard "logs" 1] 10 5 2 ∈
      (train ⟨"m", [⟨"a", true⟩]⟩ 1 5 "p" none
        (some [("val_loss", ⟨"val_loss", "min"⟩)]) "val_loss"
        ⟨"D", 10, 2, false, 45⟩).events := by
  have h := (C8_four_callbacks ⟨"m", [⟨"a", true⟩]⟩ 1 5 "p" none
    [("val_loss", ⟨"val_loss", "min"⟩)] ⟨"val_loss", "min"⟩ "val_loss"
    ⟨"D", 10, 2, false, 45⟩ True.intro (by decide) rfl).1
  exact h

end Axelerate
